import Mathlib

/-!
Verification development for the id3-go repository: a shallow embedding of the
tag/frame codec, the size-tracking mutation engine and the file resize routine,
together with theorems settling the behavioural claims about them.

Go machine integers are modelled as natural-number bit patterns with explicit
reductions modulo `2 ^ 32` (for `int32`/`uint32` values) and bytes as naturals;
Go byte slices and strings are `List Nat`.  Fallible Go functions return
`Except`/`Option`; a Go runtime panic is modelled as a dedicated failure value,
distinct from an ordinary returned error, wherever both can occur.
-/

deriving instance DecidableEq for Except

namespace v2

/-! ## Integer codec (src/v2/util.go) -/

def BytesPerInt : Nat := 4
def SynchByteLength : Nat := 7
def NormByteLength : Nat := 8

inductive ByteIntErr where
  /-- Go: errors.New "byte integer: invalid byte length" -/
  | invalidLength
  /-- Go: errors.New "byte integer: exceed max bit" -/
  | exceedMaxBit
deriving DecidableEq, Repr

/-- `i = (i << base) | int32(b)` on an `int32` bit pattern: the shift wraps
modulo `2 ^ 32`, the byte is zero-extended. -/
def shlOr32 (i base b : Nat) : Nat :=
  (i <<< base) % 2 ^ 32 ||| b

/-- The `for _, b := range buf` loop of `byteint`, folding bytes into the
accumulator `i` and rejecting a byte that needs more than `base` bits when
`base < NormByteLength`. -/
def byteintLoop (base i : Nat) : List Nat → Except ByteIntErr Nat
  | [] => .ok i
  | b :: rest =>
    if base < NormByteLength ∧ 1 <<< base ≤ b then .error .exceedMaxBit
    else byteintLoop base (shlOr32 i base b) rest

/-- `byteint` from src/v2/util.go: rejects buffers longer than `BytesPerInt`,
then folds the bytes big-endian style, `base` bits per byte. -/
def byteint (buf : List Nat) (base : Nat) : Except ByteIntErr Nat :=
  if BytesPerInt < buf.length then .error .invalidLength
  else byteintLoop base 0 buf

def synchint (buf : List Nat) : Except ByteIntErr Nat :=
  byteint buf SynchByteLength

def normint (buf : List Nat) : Except ByteIntErr Nat :=
  byteint buf NormByteLength

/-- Arithmetic (sign-extending) right shift of an `int32` bit pattern by
`k ≤ 32` bits: Go's `n >>= base` on a signed `int32`. -/
def sar32 (p k : Nat) : Nat :=
  if p < 2 ^ 31 then p >>> k else p >>> k + (2 ^ 32 - 2 ^ (32 - k))

/-- `intbytes` from src/v2/util.go with the 4-iteration loop unrolled: the
loop writes `bytes[3], bytes[2], bytes[1], bytes[0]` in that order, masking
`base` bits per output byte and arithmetically shifting `n` between steps. -/
def intbytes (n base : Nat) : List Nat :=
  let mask := (1 <<< base) - 1
  let b3 := n &&& mask
  let n1 := sar32 n base
  let b2 := n1 &&& mask
  let n2 := sar32 n1 base
  let b1 := n2 &&& mask
  let n3 := sar32 n2 base
  let b0 := n3 &&& mask
  [b0, b1, b2, b3]

def synchbytes (n : Nat) : List Nat := intbytes n SynchByteLength

def normbytes (n : Nat) : List Nat := intbytes n NormByteLength

/-! ### Codec lemmas -/

lemma shlOr32_eq (i base b : Nat) (hi : i * 2 ^ base < 2 ^ 32) (hb : b < 2 ^ base) :
    shlOr32 i base b = i * 2 ^ base + b := by
  unfold shlOr32
  rw [Nat.shiftLeft_eq, Nat.mod_eq_of_lt hi, mul_comm i (2 ^ base)]
  exact (Nat.mul_add_lt_is_or hb i).symm

lemma byteintLoop_cons_ok (base i b : Nat) (rest : List Nat) (hb : b < 1 <<< base) :
    byteintLoop base i (b :: rest) = byteintLoop base (shlOr32 i base b) rest := by
  rw [show byteintLoop base i (b :: rest) =
        if base < NormByteLength ∧ 1 <<< base ≤ b then .error .exceedMaxBit
        else byteintLoop base (shlOr32 i base b) rest from rfl,
      if_neg fun h => absurd h.2 (Nat.not_le.mpr hb)]

lemma byteintLoop7_ok (b0 b1 b2 b3 : Nat)
    (h0 : b0 < 128) (h1 : b1 < 128) (h2 : b2 < 128) (h3 : b3 < 128) :
    byteintLoop 7 0 [b0, b1, b2, b3] = .ok (((b0 * 128 + b1) * 128 + b2) * 128 + b3) := by
  have hs : (1 <<< 7 : Nat) = 128 := rfl
  have e7 : (2 : Nat) ^ 7 = 128 := by norm_num
  have e32 : (2 : Nat) ^ 32 = 4294967296 := by norm_num
  rw [byteintLoop_cons_ok 7 0 b0 _ (by omega),
      shlOr32_eq 0 7 b0 (by omega) (by omega),
      byteintLoop_cons_ok 7 _ b1 _ (by omega),
      shlOr32_eq _ 7 b1 (by omega) (by omega),
      byteintLoop_cons_ok 7 _ b2 _ (by omega),
      shlOr32_eq _ 7 b2 (by omega) (by omega),
      byteintLoop_cons_ok 7 _ b3 _ (by omega),
      shlOr32_eq _ 7 b3 (by omega) (by omega)]
  simp only [byteintLoop, e7]
  norm_num

lemma byteintLoop8_ok (b0 b1 b2 b3 : Nat)
    (h0 : b0 < 256) (h1 : b1 < 256) (h2 : b2 < 256) (h3 : b3 < 256) :
    byteintLoop 8 0 [b0, b1, b2, b3] = .ok (((b0 * 256 + b1) * 256 + b2) * 256 + b3) := by
  have hs : (1 <<< 8 : Nat) = 256 := rfl
  have e8 : (2 : Nat) ^ 8 = 256 := by norm_num
  have e32 : (2 : Nat) ^ 32 = 4294967296 := by norm_num
  rw [byteintLoop_cons_ok 8 0 b0 _ (by omega),
      shlOr32_eq 0 8 b0 (by omega) (by omega),
      byteintLoop_cons_ok 8 _ b1 _ (by omega),
      shlOr32_eq _ 8 b1 (by omega) (by omega),
      byteintLoop_cons_ok 8 _ b2 _ (by omega),
      shlOr32_eq _ 8 b2 (by omega) (by omega),
      byteintLoop_cons_ok 8 _ b3 _ (by omega),
      shlOr32_eq _ 8 b3 (by omega) (by omega)]
  simp only [byteintLoop, e8]
  norm_num

lemma sar32_small (p k : Nat) (h : p < 2147483648) : sar32 p k = p / 2 ^ k := by
  have e31 : (2 : Nat) ^ 31 = 2147483648 := by norm_num
  unfold sar32
  rw [if_pos (by omega), Nat.shiftRight_eq_div_pow]

lemma sar32_large8 (p : Nat) (h : 2147483648 ≤ p) : sar32 p 8 = p / 256 + 4278190080 := by
  have e31 : (2 : Nat) ^ 31 = 2147483648 := by norm_num
  have e32 : (2 : Nat) ^ 32 = 4294967296 := by norm_num
  have e24 : (2 : Nat) ^ (32 - 8) = 16777216 := by norm_num
  unfold sar32
  rw [if_neg (by omega), Nat.shiftRight_eq_div_pow]
  have e8 : (2 : Nat) ^ 8 = 256 := by norm_num
  omega

lemma and_mask7 (x : Nat) : x &&& ((1 <<< 7) - 1) = x % 128 := by
  have h : ((1 <<< 7 : Nat)) - 1 = 2 ^ 7 - 1 := rfl
  rw [h, Nat.and_pow_two_sub_one_eq_mod]

lemma and_mask8 (x : Nat) : x &&& ((1 <<< 8) - 1) = x % 256 := by
  have h : ((1 <<< 8 : Nat)) - 1 = 2 ^ 8 - 1 := rfl
  rw [h, Nat.and_pow_two_sub_one_eq_mod]

lemma intbytes7_eq (n : Nat) (hn : n < 268435456) :
    intbytes n 7 = [n / 2097152 % 128, n / 16384 % 128, n / 128 % 128, n % 128] := by
  have e7 : (2 : Nat) ^ 7 = 128 := by norm_num
  have s1 : sar32 n 7 = n / 128 := by rw [sar32_small n 7 (by omega), e7]
  have s2 : sar32 (n / 128) 7 = n / 16384 := by
    rw [sar32_small _ 7 (by omega), e7]
    omega
  have s3 : sar32 (n / 16384) 7 = n / 2097152 := by
    rw [sar32_small _ 7 (by omega), e7]
    omega
  simp only [intbytes, and_mask7, s1, s2, s3]

lemma intbytes8_eq (n : Nat) (hn : n < 4294967296) :
    intbytes n 8 = [n / 16777216 % 256, n / 65536 % 256, n / 256 % 256, n % 256] := by
  have e8 : (2 : Nat) ^ 8 = 256 := by norm_num
  by_cases h31 : n < 2147483648
  · have s1 : sar32 n 8 = n / 256 := by rw [sar32_small n 8 (by omega), e8]
    have s2 : sar32 (n / 256) 8 = n / 65536 := by
      rw [sar32_small _ 8 (by omega), e8]
      omega
    have s3 : sar32 (n / 65536) 8 = n / 16777216 := by
      rw [sar32_small _ 8 (by omega), e8]
      omega
    simp only [intbytes, and_mask8, s1, s2, s3]
  · have s1 : sar32 n 8 = n / 256 + 4278190080 := sar32_large8 n (by omega)
    have s2 : sar32 (n / 256 + 4278190080) 8 = n / 65536 + 4294901760 := by
      rw [sar32_large8 _ (by omega)]
      omega
    have s3 : sar32 (n / 65536 + 4294901760) 8 = n / 16777216 + 4294967040 := by
      rw [sar32_large8 _ (by omega)]
      omega
    have m1 : (n / 256 + 4278190080) % 256 = n / 256 % 256 := by omega
    have m2 : (n / 65536 + 4294901760) % 256 = n / 65536 % 256 := by omega
    have m3 : (n / 16777216 + 4294967040) % 256 = n / 16777216 % 256 := by omega
    simp only [intbytes, and_mask8, s1, s2, s3, m1, m2, m3]

lemma byteintLoop7_err (buf : List Nat) (i : Nat) (h : ∃ b ∈ buf, 128 ≤ b) :
    byteintLoop 7 i buf = .error .exceedMaxBit := by
  induction buf generalizing i with
  | nil => exact absurd h (by simp)
  | cons a rest ih =>
    by_cases ha : 128 ≤ a
    · unfold byteintLoop
      rw [if_pos ⟨by decide, by omega⟩]
    · rw [byteintLoop_cons_ok 7 i a rest (by omega)]
      apply ih
      rcases h with ⟨b, hb, hbig⟩
      rcases List.mem_cons.mp hb with rfl | hmem
      · omega
      · exact ⟨b, hmem, hbig⟩

lemma byteintLoop8_never_err (buf : List Nat) (i : Nat) :
    ∃ m, byteintLoop 8 i buf = .ok m := by
  induction buf generalizing i with
  | nil => exact ⟨i, rfl⟩
  | cons a rest ih =>
    unfold byteintLoop
    rw [if_neg fun hc => absurd hc.1 (by decide)]
    exact ih _

/-! ## Text codec (src/v2/util.go)

The package-level `EncodingMap` table and the index/terminator helpers.  Array
indexing in Go panics when the index is out of range; the panic is modelled as
`none`. -/

def EncodingMap : List String := ["ISO-8859-1", "UTF-16", "UTF-16BE", "UTF-8"]

def NativeEncoding : Nat := 3

def UTF16NullLength : Nat := 2

/-- `encodingForIndex` from src/v2/util.go.  The guard tests
`encodingIndex < 0 || encodingIndex > len(EncodingMap)` (note: `>`, not `>=`)
before indexing `EncodingMap[encodingIndex]`; the final lookup is `none` when
the array access would panic. -/
def encodingForIndex (b : Nat) : Option String :=
  let encodingIndex : Int := b
  let encodingIndex := if encodingIndex < 0 ∨ EncodingMap.length < encodingIndex
    then 0 else encodingIndex
  EncodingMap.get? encodingIndex.toNat

/-- `indexForEncoding` from src/v2/util.go: first index whose table entry
matches, 0 when no entry matches. -/
def indexForEncoding (e : String) : Nat :=
  match EncodingMap.findIdx? (· = e) with
  | some i => i
  | none => 0

/-- The pair scan of `afterNullIndex` over `data[:limit/byteCount]`: returns
the index just past the first aligned 00 00 pair, ignoring a trailing odd
byte. -/
def utf16NullScan : List Nat → Option Nat
  | a :: b :: rest =>
    if a = 0 ∧ b = 0 then some UTF16NullLength
    else (utf16NullScan rest).map (· + UTF16NullLength)
  | _ => none

/-- `afterNullIndex` from src/v2/util.go: terminator scan in units of the
encoding's terminator width, `-1` when no terminator occurs.  `none` models
the panic that `encodingForIndex` raises for index 4. -/
def afterNullIndex (data : List Nat) (encoding : Nat) : Option Int := do
  let encodingString ← encodingForIndex encoding
  if encodingString = "UTF-16" ∨ encodingString = "UTF-16BE" then
    match utf16NullScan data with
    | some afterIndex => pure (afterIndex : Int)
    | none => pure (-1)
  else
    match data.findIdx? (· = 0) with
    | some index => pure ((index : Int) + 1)
    | none => pure (-1)

/-- Modelled from the spec: the `iconv` converters (external library
`iconv-go`, §6 external collaborators; the repository only configures them in
`init`).  `Encoders[i]` converts a native (UTF-8) Go string to the encoding
`EncodingMap[i]`.  The model covers ASCII payloads, which every string this
development evaluates is: ISO-8859-1 and UTF-8 keep the bytes, UTF-16 prepends
a little-endian byte-order mark and widens each character to two bytes,
UTF-16BE widens without a mark.  A non-ASCII input or an index outside the
four-entry table is modelled as a failed conversion. -/
def encoderConvert (i : Nat) (s : List Nat) : Option (List Nat) :=
  if ¬ (∀ c ∈ s, c < 128) then none
  else match i with
    | 0 => some s
    | 1 => some (255 :: 254 :: s.foldr (fun c acc => c :: 0 :: acc) [])
    | 2 => some (s.foldr (fun c acc => 0 :: c :: acc) [])
    | 3 => some s
    | _ => none

/-- Modelled from the spec: the inverse `iconv` converters, `Decoders[i]`,
from `EncodingMap[i]` back to the native encoding, under the same ASCII
restriction as `encoderConvert`. -/
def decoderConvert (i : Nat) (bs : List Nat) : Option (List Nat) :=
  match i with
  | 0 => if ∀ c ∈ bs, c < 128 then some bs else none
  | 1 => match bs with
    | [] => some []
    | 255 :: 254 :: rest => decodeUtf16LEPairs rest
    | _ => none
  | 2 => decodeUtf16BEPairs bs
  | 3 => if ∀ c ∈ bs, c < 128 then some bs else none
  | _ => none
where
  decodeUtf16LEPairs : List Nat → Option (List Nat)
    | [] => some []
    | c :: 0 :: rest => if c < 128 then (decodeUtf16LEPairs rest).map (c :: ·) else none
    | _ => none
  decodeUtf16BEPairs : List Nat → Option (List Nat)
    | [] => some []
    | 0 :: c :: rest => if c < 128 then (decodeUtf16BEPairs rest).map (c :: ·) else none
    | _ => none

/-- `encodedDiff` from src/v2/util.go: the byte-length difference between the
two encoded strings; `none` when either conversion fails (or its table index
is invalid). -/
def encodedDiff (ea : Nat) (a : List Nat) (eb : Nat) (b : List Nat) : Option Int := do
  let encodedStringA ← encoderConvert ea a
  let encodedStringB ← encoderConvert eb b
  pure ((encodedStringA.length : Int) - (encodedStringB.length : Int))

end v2

/-- Claim C7: `encodingForIndex` is claimed total with the Latin-1 default for
every out-of-range index.  The guard uses `>` where `>=` is needed, so index 4
escapes it and the table access `EncodingMap[4]` is out of range: the call
panics (modelled `none`) instead of returning a defended default, while every
index from 5 on is caught by the guard and mapped to ISO-8859-1.  This
evaluation exhibits the failing input 4. -/
theorem claimC7_encodingForIndex_panics_at_4 :
    v2.encodingForIndex 4 = none ∧
    v2.encodingForIndex 5 = some ("ISO-8859-1") ∧
    v2.encodingForIndex 3 = some ("UTF-8") :=
  ⟨rfl, rfl, rfl⟩

namespace v2

/-! ## Frame writer (src/v2/writer.go)

A bounded cursor over a fixed destination buffer.  `write` mirrors Go's
`copy`: it transfers `min(len(b), len(data)-index)` bytes. -/

inductive GoErr where
  | eof
  | conversion
deriving DecidableEq, Repr

structure writer where
  data : List Nat
  index : Nat
deriving DecidableEq, Repr

/-- `writer.write`: empty input returns immediately; a cursor at or past the
end of the buffer returns `io.EOF`; otherwise `copy` transfers as many bytes
as fit and the call reports success with that count. -/
def writer.write (w : writer) (b : List Nat) : (Nat × Option GoErr) × writer :=
  if b.length = 0 then ((0, none), w)
  else if w.data.length ≤ w.index then ((0, some .eof), w)
  else
    let n := min b.length (w.data.length - w.index)
    ((n, none),
      ⟨w.data.take w.index ++ b.take n ++ w.data.drop (w.index + n), w.index + n⟩)

def writer.writeByte (w : writer) (b : Nat) : Option GoErr × writer :=
  if w.data.length ≤ w.index then (some .eof, w)
  else (none, ⟨w.data.take w.index ++ [b] ++ w.data.drop (w.index + 1), w.index + 1⟩)

/-- `writer.writeString`: encode through `Encoders[encoding]`, then delegate
to `write`, propagating only the error of the pair `write` returns. -/
def writer.writeString (w : writer) (s : List Nat) (encoding : Nat) :
    Option GoErr × writer :=
  match encoderConvert encoding s with
  | none => (some .conversion, w)
  | some encodedString =>
    let ((_, err), w') := w.write encodedString
    (err, w')

def newWriter (b : List Nat) : writer := ⟨b, 0⟩

end v2

/-- Claim C8 counterexample: the claim says a raw-bytes write longer than the
remaining space fails with an error instead of silently truncating.  On the
two-byte buffer with the cursor at 0, writing three bytes returns no error and
reports only two bytes written: the write is silently truncated, refuting the
claim at this input. -/
theorem claimC8_counterexample_silent_truncation :
    ((v2.writer.mk [0, 0] 0).write [1, 2, 3]).1.2 = none ∧
    ((v2.writer.mk [0, 0] 0).write [1, 2, 3]).1.1 = 2 ∧
    ((v2.writer.mk [0, 0] 0).write [1, 2, 3]).2.data = [1, 2] := by
  decide

/-- Claim C8 amended: `write` fails (with `io.EOF`, writing nothing) only when
the cursor already sits at or past the end of the buffer and the input is
nonempty; a write that fits entirely succeeds in full; a write that only
partly fits succeeds silently, transferring exactly the bytes that fit. -/
theorem claimC8_amended_write_behaviour (w : v2.writer) (b : List Nat) :
    (b ≠ [] → w.data.length ≤ w.index → w.write b = ((0, some .eof), w)) ∧
    (w.index + b.length ≤ w.data.length → (w.write b).1 = (b.length, none)) ∧
    (w.index < w.data.length → w.data.length < w.index + b.length →
      (w.write b).1 = (w.data.length - w.index, none)) := by
  refine ⟨fun hb hfull => ?_, fun hfit => ?_, fun hroom hover => ?_⟩
  · unfold v2.writer.write
    rw [if_neg (by simpa using hb), if_pos hfull]
  · unfold v2.writer.write
    by_cases hb : b.length = 0
    · rw [if_pos hb]
      simp [hb]
    · rw [if_neg hb, if_neg (by omega)]
      simp only
      congr 2
      omega
  · unfold v2.writer.write
    rw [if_neg (by omega), if_neg (by omega)]
    simp only
    congr 2
    omega

/-- Witness for the amended C8 at concrete inputs: a write at a full cursor
fails, a fitting write succeeds in full, an overflowing write truncates to the
remaining single byte without an error. -/
theorem claimC8_amended_write_behaviour_witness :
    (v2.writer.mk [0, 0] 2).write [9] = ((0, some .eof), v2.writer.mk [0, 0] 2) ∧
    ((v2.writer.mk [0, 0, 0] 0).write [7, 8]).1 = (2, none) ∧
    ((v2.writer.mk [0, 0] 1).write [7, 8, 9]).1 = (1, none) :=
  ⟨(claimC8_amended_write_behaviour _ _).1 (by decide) (by decide),
   (claimC8_amended_write_behaviour _ [7, 8]).2.1 (by decide),
   (claimC8_amended_write_behaviour _ [7, 8, 9]).2.2 (by decide) (by decide)⟩

namespace encodedbytes

/-! ## Frame reader (src/encodedbytes/reader.go)

The bounded read cursor.  `ReadNullTermString` feeds `afterNullIndex` straight
into `ReadNumBytes`, whose non-positive-count branch turns a missing
terminator (-1) into an empty successful read. -/

structure Reader where
  data : List Nat
  index : Nat
deriving DecidableEq, Repr

/-- `Reader.ReadNumBytes`: a non-positive count returns an empty slice with no
error and no cursor movement; a count that overruns the buffer returns
`io.EOF`; otherwise exactly `n` bytes are read and the cursor advances. -/
def Reader.ReadNumBytes (r : Reader) (n : Int) : Except v2.GoErr (List Nat) × Reader :=
  if n ≤ 0 then (.ok [], r)
  else if r.data.length < r.index + n.toNat then (.error .eof, r)
  else (.ok ((r.data.drop r.index).take n.toNat), ⟨r.data, r.index + n.toNat⟩)

/-- `Reader.ReadNullTermString`: `ReadNumBytes (afterNullIndex ...)` followed
by `Decoders[encoding].ConvertString`.  `none` models the two panics on this
path: `encodingForIndex` reading past the table inside `afterNullIndex`
(index 4) and `Decoders[encoding]` being indexed past its four entries. -/
def Reader.ReadNullTermString (r : Reader) (encoding : Nat) :
    Option (Except v2.GoErr (List Nat) × Reader) := do
  let afterNull ← v2.afterNullIndex (r.data.drop r.index) encoding
  let (res, rAfter) := r.ReadNumBytes afterNull
  match res with
  | .error e => some (.error e, rAfter)
  | .ok b =>
    if v2.EncodingMap.length ≤ encoding then none
    else match v2.decoderConvert encoding b with
      | none => some (.error .conversion, rAfter)
      | some s => some (.ok s, rAfter)

def NewReader (b : List Nat) : Reader := ⟨b, 0⟩

end encodedbytes

/-- Claim C10 counterexample: the claim quantifies over every encoding byte.
For encoding 5 on terminator-free data, `afterNullIndex` does return -1 and
`ReadNumBytes` does produce the empty read, but the call then indexes
`Decoders[5]` past the four-entry converter table and panics instead of
returning the empty string, refuting the claim as stated. -/
theorem claimC10_counterexample_decoder_index_panic :
    v2.afterNullIndex [65] 5 = some (-1) ∧
    (encodedbytes.Reader.mk [65] 0).ReadNullTermString 5 = none := by
  constructor
  · rfl
  · rfl

/-- Claim C10 amended: for every cursor and every encoding index that is valid
for the converter table (0-3), when the remaining bytes contain no terminator
(`afterNullIndex` returns -1) `ReadNullTermString` succeeds with the empty
string and consumes nothing. -/
theorem claimC10_amended_no_terminator_empty_read
    (r : encodedbytes.Reader) (encoding : Nat) (henc : encoding < 4)
    (hnull : v2.afterNullIndex (r.data.drop r.index) encoding = some (-1)) :
    r.ReadNullTermString encoding = some (.ok [], r) := by
  have hdec : v2.decoderConvert encoding [] = some [] := by
    interval_cases encoding <;> rfl
  unfold encodedbytes.Reader.ReadNullTermString
  rw [hnull]
  have hnum : r.ReadNumBytes (-1) = (.ok [], r) := by
    unfold encodedbytes.Reader.ReadNumBytes
    rw [if_pos (by omega)]
  have hlt : ¬ (v2.EncodingMap.length ≤ encoding) := by
    simp only [v2.EncodingMap, List.length_cons, List.length_nil]
    omega
  simp [hnum, hlt, hdec]

/-- Witness for the amended C10: Latin-1 data "AB" with no terminator is read
as the empty string with the cursor untouched. -/
theorem claimC10_amended_no_terminator_empty_read_witness :
    (encodedbytes.Reader.mk [65, 66] 0).ReadNullTermString 0 =
      some (.ok [], encodedbytes.Reader.mk [65, 66] 0) :=
  claimC10_amended_no_terminator_empty_read _ 0 (by decide) (by decide)

namespace v2

/-! ## Frame variants and mutators (src/frame.go, package v2 iteration)

The polymorphic frame hierarchy built from embedded structs.  The
`constructor` member of `FrameType` is a function pointer in Go; the model
identifies it by the variant it builds. -/

inductive FrameCtor where
  | dataFrame
  | textFrame
  | descTextFrame
  | unsynchTextFrame
  | imageFrame
deriving DecidableEq, Repr

structure FrameType where
  id : String
  description : String
  constructor : FrameCtor
deriving DecidableEq, Repr

/-- `FrameHead` from src/frame.go: embedded `FrameType`, the two flag bytes,
the `uint32` size and the `owner *Tag` back-pointer (modelled by its
presence); the pointer's only use is the `owner.changeSize` propagation. -/
structure FrameHead where
  frameType : FrameType
  statusFlags : Nat
  formatFlags : Nat
  size : Nat
  hasOwner : Bool
deriving DecidableEq, Repr

/-- `FrameHead.changeSize` from src/frame.go.  The method has a VALUE
receiver: Go copies the whole header into `h`, updates the copy's `size`
field (with `uint32` wrap-around) and calls `owner.changeSize` through the
copied pointer.  The function returns the updated copy to make the write
visible; every caller discards it, per Go semantics, so the caller's frame
keeps its previous size. -/
def FrameHead.changeSize (h : FrameHead) (diff : Int) : FrameHead :=
  if 0 ≤ diff then { h with size := (h.size + diff.toNat) % 2 ^ 32 }
  else { h with size := (h.size + 2 ^ 32 - (-diff).toNat % 2 ^ 32) % 2 ^ 32 }

inductive MutErr where
  /-- Go: errors.New "encoding: invalid encoding" -/
  | invalidEncoding
  /-- Go: errors.New "language: invalid language string" -/
  | invalidLanguage
  /-- an error propagated from an `iconv` conversion -/
  | conversion
deriving DecidableEq, Repr

/-- `TextFrame` from src/frame.go: embedded `FrameHead`, encoding byte and
native-encoded text. -/
structure TextFrame where
  head : FrameHead
  encoding : Nat
  text : List Nat
deriving DecidableEq, Repr

def TextFrame.Size (f : TextFrame) : Nat := f.head.size

/-- `NewTextFrame(ft, text)`: fresh header with `size = 1 + len(text)`, zero
flags, no owner, zero (ISO-8859-1) encoding. -/
def NewTextFrame (ft : FrameType) (text : List Nat) : TextFrame :=
  { head := { frameType := ft, statusFlags := 0, formatFlags := 0,
              size := (1 + text.length) % 2 ^ 32, hasOwner := false },
    encoding := 0, text := text }

/-- `TextFrame.SetEncoding` from src/frame.go.  `indexForEncoding` yields a
byte, so the `if i < 0` validation can never fire: an unknown encoding name
falls through as index 0.  The `changeSize` result is dropped (value
receiver). -/
def TextFrame.SetEncoding (f : TextFrame) (encoding : String) : Except MutErr TextFrame :=
  let i := indexForEncoding encoding
  if (i : Int) < 0 then .error .invalidEncoding
  else match encodedDiff f.encoding f.text i f.text with
    | none => .error .conversion
    | some diff =>
      let _ := f.head.changeSize diff
      .ok { f with encoding := i }

/-- `TextFrame.SetText` from src/frame.go; the `changeSize` result is dropped
(value receiver). -/
def TextFrame.SetText (f : TextFrame) (text : List Nat) : Except MutErr TextFrame :=
  match encodedDiff f.encoding text f.encoding f.text with
  | none => .error .conversion
  | some diff =>
    let _ := f.head.changeSize diff
    .ok { f with text := text }

/-- `DescTextFrame` from src/frame.go: embedded `TextFrame` plus a
description. -/
structure DescTextFrame where
  textFrame : TextFrame
  description : List Nat
deriving DecidableEq, Repr

def DescTextFrame.Size (f : DescTextFrame) : Nat := f.textFrame.head.size

/-- `NewDescTextFrame(ft, desc, text)`: a fresh text frame whose size is
increased by `len(desc)`. -/
def NewDescTextFrame (ft : FrameType) (desc text : List Nat) : DescTextFrame :=
  let f := NewTextFrame ft text
  { textFrame := { f with head := { f.head with size := (f.head.size + desc.length) % 2 ^ 32 } },
    description := desc }

def DescTextFrame.SetDescription (f : DescTextFrame) (description : List Nat) :
    Except MutErr DescTextFrame :=
  match encodedDiff f.textFrame.encoding description f.textFrame.encoding f.description with
  | none => .error .conversion
  | some diff =>
    let _ := f.textFrame.head.changeSize diff
    .ok { f with description := description }

/-- `DescTextFrame.SetEncoding` from src/frame.go: the same unreachable
`i < 0` guard, then the two per-field diffs (the source computes `descDiff`
from the text and `textDiff` from the description; both are old-length minus
new-length) summed into one dropped `changeSize`. -/
def DescTextFrame.SetEncoding (f : DescTextFrame) (encoding : String) :
    Except MutErr DescTextFrame :=
  let i := indexForEncoding encoding
  if (i : Int) < 0 then .error .invalidEncoding
  else match encodedDiff f.textFrame.encoding f.textFrame.text i f.textFrame.text with
    | none => .error .conversion
    | some descDiff =>
      match encodedDiff f.textFrame.encoding f.description i f.description with
      | none => .error .conversion
      | some textDiff =>
        let _ := f.textFrame.head.changeSize (descDiff + textDiff)
        .ok { f with textFrame := { f.textFrame with encoding := i } }

/-- `UnsynchTextFrame` from src/frame.go: embedded `DescTextFrame` plus the
3-byte language code. -/
structure UnsynchTextFrame where
  descTextFrame : DescTextFrame
  language : List Nat
deriving DecidableEq, Repr

def UnsynchTextFrame.Size (f : UnsynchTextFrame) : Nat :=
  f.descTextFrame.textFrame.head.size

/-- `NewUnsynchTextFrame(ft, desc, text)`: a fresh described-text frame whose
size is increased by 3 for the language code, defaulted to "eng". -/
def NewUnsynchTextFrame (ft : FrameType) (desc text : List Nat) : UnsynchTextFrame :=
  let f := NewDescTextFrame ft desc text
  { descTextFrame :=
      { f with textFrame :=
        { f.textFrame with head :=
          { f.textFrame.head with size := (f.textFrame.head.size + 3) % 2 ^ 32 } } },
    language := [101, 110, 103] }

def UnsynchTextFrame.SetLanguage (f : UnsynchTextFrame) (language : List Nat) :
    Except MutErr UnsynchTextFrame :=
  if language.length ≠ 3 then .error .invalidLanguage
  else .ok { f with language := language }

/-- Method promotion: `SetEncoding` on an `UnsynchTextFrame` runs
`DescTextFrame.SetEncoding` on the embedded struct. -/
def UnsynchTextFrame.SetEncoding (f : UnsynchTextFrame) (encoding : String) :
    Except MutErr UnsynchTextFrame :=
  match f.descTextFrame.SetEncoding encoding with
  | .error e => .error e
  | .ok d => .ok { f with descTextFrame := d }

end v2

/-- Claim C2: a mutation is claimed to apply its byte-length delta to the
frame's own size field (and the owner's aggregate).  `changeSize` has a value
receiver, so the frame's size field never changes: taking the repository's own
test scenario (`TestUnsynchTextFrame_SetEncoding`), a COMM frame built as
`NewUnsynchTextFrame(ft, "Foo", "Bar")` has size 10, and after
`SetEncoding("UTF-16")` its size is still 10 even though the re-encoded fields
grew (that test expects the size to change).  Moreover the delta handed to the
owner is `old - new` = -10, the negation of the actual growth, so even the
propagated tag aggregate would move the wrong way. -/
theorem claimC2_setEncoding_leaves_frame_size_unchanged :
    ((v2.NewUnsynchTextFrame ⟨"COMM", "Comments", .unsynchTextFrame⟩
        [70, 111, 111] [66, 97, 114]).SetEncoding ("UTF-16")).map v2.UnsynchTextFrame.Size
      = .ok 10 ∧
    ((v2.NewUnsynchTextFrame ⟨"COMM", "Comments", .unsynchTextFrame⟩
        [70, 111, 111] [66, 97, 114]).SetEncoding ("UTF-16")).map
          (fun f => f.descTextFrame.textFrame.encoding) = .ok 1 ∧
    (v2.NewUnsynchTextFrame ⟨"COMM", "Comments", .unsynchTextFrame⟩
        [70, 111, 111] [66, 97, 114]).Size = 10 ∧
    v2.encodedDiff 0 [66, 97, 114] 1 [66, 97, 114] = some (-5) := by
  refine ⟨?_, ?_, rfl, rfl⟩ <;> rfl

/-- Claim C6: a mutator given invalid input is claimed to error and change
nothing.  `SetLanguage` does validate, but `SetEncoding` cannot: its
`if i < 0` guard tests a byte, so the unknown name "BOGUS" silently maps to
index 0 and the call succeeds, rewriting the frame's encoding from UTF-16 to
ISO-8859-1 instead of returning the invalid-encoding error. -/
theorem claimC6_setEncoding_accepts_unknown_name :
    (v2.TextFrame.SetEncoding
        ⟨⟨⟨"TIT2", "Title/songname/content description", .textFrame⟩, 0, 0, 9, true⟩,
          1, [66, 97, 114]⟩ "BOGUS")
      = .ok ⟨⟨⟨"TIT2", "Title/songname/content description", .textFrame⟩, 0, 0, 9, true⟩,
          0, [66, 97, 114]⟩ ∧
    (v2.UnsynchTextFrame.SetLanguage
        (v2.NewUnsynchTextFrame ⟨"COMM", "Comments", .unsynchTextFrame⟩
          [70, 111, 111] [66, 97, 114]) [101, 110])
      = .error .invalidLanguage := by
  constructor <;> rfl

/-- Claim C5: round-trip of the integer codec.  Every `n < 2 ^ 28` survives the
synch-safe (7 bits per byte) encode/decode pair, and every 32-bit pattern
`n < 2 ^ 32` survives the normal (8 bits per byte) encode/decode pair, with no
error in either direction. -/
theorem claimC5_intcodec_roundtrip :
    (∀ n : Nat, n < 2 ^ 28 → v2.synchint (v2.synchbytes n) = .ok n) ∧
    (∀ n : Nat, n < 2 ^ 32 → v2.normint (v2.normbytes n) = .ok n) := by
  constructor
  · intro n hn
    have hn' : n < 268435456 := by norm_num at hn; omega
    show v2.byteint (v2.intbytes n 7) 7 = .ok n
    rw [v2.intbytes7_eq n hn']
    unfold v2.byteint
    rw [if_neg (by simp [v2.BytesPerInt])]
    rw [v2.byteintLoop7_ok _ _ _ _
      (by omega) (Nat.mod_lt _ (by omega)) (Nat.mod_lt _ (by omega)) (Nat.mod_lt _ (by omega))]
    congr 1
    omega
  · intro n hn
    have hn' : n < 4294967296 := by norm_num at hn; omega
    show v2.byteint (v2.intbytes n 8) 8 = .ok n
    rw [v2.intbytes8_eq n hn']
    unfold v2.byteint
    rw [if_neg (by simp [v2.BytesPerInt])]
    rw [v2.byteintLoop8_ok _ _ _ _
      (Nat.mod_lt _ (by omega)) (Nat.mod_lt _ (by omega)) (Nat.mod_lt _ (by omega))
      (Nat.mod_lt _ (by omega))]
    congr 1
    omega

/-- Witness for C5 at the repository's own test vectors: 144619524 (synch-safe)
and 194358964 (normal). -/
theorem claimC5_intcodec_roundtrip_witness :
    v2.synchint (v2.synchbytes 144619524) = .ok 144619524 ∧
    v2.normint (v2.normbytes 194358964) = .ok 194358964 :=
  ⟨claimC5_intcodec_roundtrip.1 144619524 (by norm_num),
   claimC5_intcodec_roundtrip.2 194358964 (by norm_num)⟩

/-- Claim C9: a 4-byte buffer containing a byte with the high bit set is
rejected by the synch-safe decoder (`synchint`) with the exceed-max-bit error,
while the normal decoder (`normint`) never reports that error for any input
(the only error it can report is the invalid-length one). -/
theorem claimC9_synchsafe_corruption_rejected :
    (∀ buf : List Nat, buf.length = 4 → (∃ b ∈ buf, 2 ^ 7 ≤ b) →
      v2.synchint buf = .error .exceedMaxBit) ∧
    (∀ buf : List Nat, v2.normint buf ≠ .error .exceedMaxBit) := by
  constructor
  · intro buf hlen hbig
    show v2.byteint buf 7 = .error .exceedMaxBit
    unfold v2.byteint
    rw [if_neg (by simp [v2.BytesPerInt, hlen])]
    exact v2.byteintLoop7_err buf 0 (by simpa using hbig)
  · intro buf
    show v2.byteint buf 8 ≠ .error .exceedMaxBit
    unfold v2.byteint
    split
    · simp
    · rcases v2.byteintLoop8_never_err buf 0 with ⟨m, hm⟩
      simp [hm]

/-- Witness for C9: the concrete corrupt buffer `80 00 00 00` is rejected by
`synchint`, and the all-ones buffer is not rejected by `normint`. -/
theorem claimC9_synchsafe_corruption_rejected_witness :
    v2.synchint [128, 0, 0, 0] = .error .exceedMaxBit ∧
    v2.normint [255, 255, 255, 255] ≠ .error .exceedMaxBit :=
  ⟨claimC9_synchsafe_corruption_rejected.1 [128, 0, 0, 0] (by decide)
      ⟨128, by decide, by decide⟩,
   claimC9_synchsafe_corruption_rejected.2 [255, 255, 255, 255]⟩

namespace id3

/-! ## Tag parsing (package id3 iteration: src/unnamed/part_002, src/id3v23.go,
src/id3v22.go and the frame constructors of src/frame.go)

The byte-stream parser.  A stream is a `List Nat`; parsing functions return
the unconsumed remainder so the cursor position stays explicit.  A Go runtime
panic (negative `make` length, out-of-range index) is a dedicated value. -/

def HeaderSize : Nat := 10
def FrameHeaderSize : Nat := 10
def V2FrameHeaderSize : Nat := 6

/-- `byteint` from the package-id3 iteration of util.go: the same fold as the
v2 one, but the length check is `len(buf) != BytesPerInt`, so 3-byte buffers
are rejected as well. -/
def byteint (buf : List Nat) (base : Nat) : Except v2.ByteIntErr Nat :=
  if buf.length ≠ v2.BytesPerInt then .error .invalidLength
  else v2.byteintLoop base 0 buf

def synchint (buf : List Nat) : Except v2.ByteIntErr Nat :=
  byteint buf v2.SynchByteLength

def normint (buf : List Nat) : Except v2.ByteIntErr Nat :=
  byteint buf v2.NormByteLength

/-- `Head` from src/unnamed/part_002: the tag header record. -/
structure Head where
  version : Nat
  revision : Nat
  flags : Nat
  size : Nat
deriving DecidableEq, Repr

/-- `Head.Version`: `fmt.Sprintf("2.%d.%d", version, revision)`. -/
def Head.Version (h : Head) : String :=
  "2." ++ toString h.version ++ "." ++ toString h.revision

/-- `NewHeader` from src/unnamed/part_002: read `HeaderSize` bytes, check the
"ID3" magic, decode the synch-safe declared size. -/
def NewHeader (stream : List Nat) : Option (Head × List Nat) :=
  let data := stream.take HeaderSize
  let rest := stream.drop HeaderSize
  if data.length < HeaderSize then none
  else if ¬ data.take 3 = [73, 68, 51] then none
  else match synchint (data.drop 6) with
    | .error _ => none
    | .ok size =>
      some ({ version := data.getD 3 0, revision := data.getD 4 0,
              flags := data.getD 5 0, size := size }, rest)

/-- `FrameHead` from the parsing iteration of src/frame.go (no owner
pointer). -/
structure FrameHead where
  frameType : v2.FrameType
  statusFlags : Nat
  formatFlags : Nat
  size : Nat
deriving DecidableEq, Repr

/-- `Framer` as the closed set of frame variants of src/frame.go. -/
inductive Framer where
  | dataFrame (head : FrameHead) (data : List Nat)
  | textFrame (head : FrameHead) (encoding : Nat) (text : List Nat)
  | descTextFrame (head : FrameHead) (encoding : Nat) (description text : List Nat)
  | unsynchTextFrame (head : FrameHead) (encoding : Nat)
      (language description text : List Nat)
  | imageFrame (head : FrameHead) (encoding : Nat) (mimeType : List Nat)
      (pictureType : Nat) (description data : List Nat)
deriving DecidableEq, Repr

def Framer.head : Framer → FrameHead
  | .dataFrame h _ => h
  | .textFrame h _ _ => h
  | .descTextFrame h _ _ _ => h
  | .unsynchTextFrame h _ _ _ _ => h
  | .imageFrame h _ _ _ _ _ => h

def Framer.Id (f : Framer) : String := f.head.frameType.id

def Framer.Size (f : Framer) : Nat := f.head.size

/-- Outcome of one frame constructor: a frame, Go `nil`, or a runtime
panic. -/
inductive CtorRes where
  | frame (f : Framer)
  | nil
  | panicked
deriving DecidableEq, Repr

/-- `Decoders[encoding].ConvertString`: indexing the four-entry converter
table out of range panics. -/
def decodeAt (encoding : Nat) (bs : List Nat) : CtorRes → (List Nat → CtorRes) → CtorRes :=
  fun onErr onOk =>
    if v2.EncodingMap.length ≤ encoding then .panicked
    else match v2.decoderConvert encoding bs with
      | none => onErr
      | some s => onOk s

/-- `NewDataFrame` from src/frame.go: the whole payload is the data. -/
def NewDataFrame (head : FrameHead) (data : List Nat) : CtorRes :=
  .frame (.dataFrame head data)

/-- `NewTextFrame` from src/frame.go: `data[0]` is the encoding (panics on an
empty payload), the rest decodes to the text (`nil` on a conversion error). -/
def NewTextFrame (head : FrameHead) (data : List Nat) : CtorRes :=
  match data.get? 0 with
  | none => .panicked
  | some encoding =>
    decodeAt encoding (data.drop 1) .nil fun text =>
      .frame (.textFrame head encoding text)

/-- `NewDescTextFrame` from src/frame.go: encoding byte, description up to the
terminator found by `afterNullIndex` (`nil` when there is none), text over the
rest. -/
def NewDescTextFrame (head : FrameHead) (data : List Nat) : CtorRes :=
  match data.get? 0 with
  | none => .panicked
  | some encoding =>
    match v2.afterNullIndex (data.drop 1) encoding with
    | none => .panicked
    | some i =>
      if i < 0 then .nil
      else
        let cutoff := 1 + i.toNat
        decodeAt encoding ((data.drop 1).take i.toNat) .nil fun description =>
          decodeAt encoding (data.drop cutoff) .nil fun text =>
            .frame (.descTextFrame head encoding description text)

/-- `NewUnsynchTextFrame` from src/frame.go: encoding byte, raw
`data[1:4]` language (panics when the payload is shorter than 4), then as a
described-text frame starting at offset 4. -/
def NewUnsynchTextFrame (head : FrameHead) (data : List Nat) : CtorRes :=
  match data.get? 0 with
  | none => .panicked
  | some encoding =>
    if data.length < 4 then .panicked
    else
      let language := (data.drop 1).take 3
      match v2.afterNullIndex (data.drop 4) encoding with
      | none => .panicked
      | some i =>
        if i < 0 then .nil
        else
          let cutoff := 4 + i.toNat
          decodeAt encoding ((data.drop 4).take i.toNat) .nil fun description =>
            decodeAt encoding (data.drop cutoff) .nil fun text =>
              .frame (.unsynchTextFrame head encoding language description text)

/-- `buffer.ReadString(0)`: the bytes up to and including the first 0, `none`
when there is no 0 (the buffer returns an error). -/
def readThroughNull : List Nat → Option (List Nat)
  | [] => none
  | 0 :: _ => some [0]
  | c :: rest => (readThroughNull rest).map (c :: ·)

/-- `NewImageFrame` from src/frame.go: encoding byte, Latin-1 null-terminated
MIME type, picture-type byte, terminated description, rest as image data. -/
def NewImageFrame (head : FrameHead) (data : List Nat) : CtorRes :=
  match data.get? 0 with
  | none => .panicked
  | some encodingIndex =>
    match readThroughNull (data.drop 1) with
    | none => .nil
    | some mimeType =>
      match (data.drop (1 + mimeType.length)).get? 0 with
      | none => .nil
      | some pictureType =>
        let beginIndex := 1 + mimeType.length + 1
        match v2.afterNullIndex (data.drop beginIndex) encodingIndex with
        | none => .panicked
        | some i =>
          if i < 0 then .nil
          else
            let cutoff := beginIndex + i.toNat
            decodeAt encodingIndex ((data.drop beginIndex).take i.toNat) .nil
              fun description =>
                .frame (.imageFrame head encodingIndex mimeType pictureType
                  description (data.drop cutoff))

/-- Dispatch through the `constructor` member of a `FrameType`. -/
def construct : v2.FrameCtor → FrameHead → List Nat → CtorRes
  | .dataFrame => NewDataFrame
  | .textFrame => NewTextFrame
  | .descTextFrame => NewDescTextFrame
  | .unsynchTextFrame => NewUnsynchTextFrame
  | .imageFrame => NewImageFrame

/-- `string(bytes)` over raw bytes. -/
def stringOfBytes (bs : List Nat) : String :=
  String.mk (bs.map Char.ofNat)

set_option maxHeartbeats 1000000 in
/-- `V23FrameTypeMap` from src/id3v23.go. -/
def V23FrameTypeMap : List (String × v2.FrameType) := [
  ("AENC", ⟨"AENC", "Audio encryption", .dataFrame⟩),
  ("APIC", ⟨"APIC", "Attached picture", .imageFrame⟩),
  ("COMM", ⟨"COMM", "Comments", .unsynchTextFrame⟩),
  ("COMR", ⟨"COMR", "Commercial frame", .dataFrame⟩),
  ("ENCR", ⟨"ENCR", "Encryption method registration", .dataFrame⟩),
  ("EQUA", ⟨"EQUA", "Equalization", .dataFrame⟩),
  ("ETCO", ⟨"ETCO", "Event timing codes", .dataFrame⟩),
  ("GEOB", ⟨"GEOB", "General encapsulated object", .dataFrame⟩),
  ("GRID", ⟨"GRID", "Group identification registration", .dataFrame⟩),
  ("IPLS", ⟨"IPLS", "Involved people list", .dataFrame⟩),
  ("LINK", ⟨"LINK", "Linked information", .dataFrame⟩),
  ("MCDI", ⟨"MCDI", "Music CD identifier", .dataFrame⟩),
  ("MLLT", ⟨"MLLT", "MPEG location lookup table", .dataFrame⟩),
  ("OWNE", ⟨"OWNE", "Ownership frame", .dataFrame⟩),
  ("PRIV", ⟨"PRIV", "Private frame", .dataFrame⟩),
  ("PCNT", ⟨"PCNT", "Play counter", .dataFrame⟩),
  ("POPM", ⟨"POPM", "Popularimeter", .dataFrame⟩),
  ("POSS", ⟨"POSS", "Position synchronisation frame", .dataFrame⟩),
  ("RBUF", ⟨"RBUF", "Recommended buffer size", .dataFrame⟩),
  ("RVAD", ⟨"RVAD", "Relative volume adjustment", .dataFrame⟩),
  ("RVRB", ⟨"RVRB", "Reverb", .dataFrame⟩),
  ("SYLT", ⟨"SYLT", "Synchronized lyric/text", .dataFrame⟩),
  ("SYTC", ⟨"SYTC", "Synchronized tempo codes", .dataFrame⟩),
  ("TALB", ⟨"TALB", "Album/Movie/Show title", .textFrame⟩),
  ("TBPM", ⟨"TBPM", "BPM (beats per minute)", .textFrame⟩),
  ("TCOM", ⟨"TCOM", "Composer", .textFrame⟩),
  ("TCON", ⟨"TCON", "Content type", .textFrame⟩),
  ("TCOP", ⟨"TCOP", "Copyright message", .textFrame⟩),
  ("TDAT", ⟨"TDAT", "Date", .textFrame⟩),
  ("TDLY", ⟨"TDLY", "Playlist delay", .textFrame⟩),
  ("TENC", ⟨"TENC", "Encoded by", .textFrame⟩),
  ("TEXT", ⟨"TEXT", "Lyricist/Text writer", .textFrame⟩),
  ("TFLT", ⟨"TFLT", "File type", .textFrame⟩),
  ("TIME", ⟨"TIME", "Time", .textFrame⟩),
  ("TIT1", ⟨"TIT1", "Content group description", .textFrame⟩),
  ("TIT2", ⟨"TIT2", "Title/songname/content description", .textFrame⟩),
  ("TIT3", ⟨"TIT3", "Subtitle/Description refinement", .textFrame⟩),
  ("TKEY", ⟨"TKEY", "Initial key", .textFrame⟩),
  ("TLAN", ⟨"TLAN", "Language(s)", .textFrame⟩),
  ("TLEN", ⟨"TLEN", "Length", .textFrame⟩),
  ("TMED", ⟨"TMED", "Media type", .textFrame⟩),
  ("TOAL", ⟨"TOAL", "Original album/movie/show title", .textFrame⟩),
  ("TOFN", ⟨"TOFN", "Original filename", .textFrame⟩),
  ("TOLY", ⟨"TOLY", "Original lyricist(s)/text writer(s)", .textFrame⟩),
  ("TOPE", ⟨"TOPE", "Original artist(s)/performer(s)", .textFrame⟩),
  ("TORY", ⟨"TORY", "Original release year", .textFrame⟩),
  ("TOWN", ⟨"TOWN", "File owner/licensee", .textFrame⟩),
  ("TPE1", ⟨"TPE1", "Lead performer(s)/Soloist(s)", .textFrame⟩),
  ("TPE2", ⟨"TPE2", "Band/orchestra/accompaniment", .textFrame⟩),
  ("TPE3", ⟨"TPE3", "Conductor/performer refinement", .textFrame⟩),
  ("TPE4", ⟨"TPE4", "Interpreted, remixed, or otherwise modified by", .textFrame⟩),
  ("TPOS", ⟨"TPOS", "Part of a set", .textFrame⟩),
  ("TPUB", ⟨"TPUB", "Publisher", .textFrame⟩),
  ("TRCK", ⟨"TRCK", "Track number/Position in set", .textFrame⟩),
  ("TRDA", ⟨"TRDA", "Recording dates", .textFrame⟩),
  ("TRSN", ⟨"TRSN", "Internet radio station name", .textFrame⟩),
  ("TRSO", ⟨"TRSO", "Internet radio station owner", .textFrame⟩),
  ("TSIZ", ⟨"TSIZ", "Size", .textFrame⟩),
  ("TSRC", ⟨"TSRC", "ISRC (international standard recording code)", .textFrame⟩),
  ("TSSE", ⟨"TSSE", "Software/Hardware and settings used for encoding", .textFrame⟩),
  ("TYER", ⟨"TYER", "Year", .textFrame⟩),
  ("TXXX", ⟨"TXXX", "User defined text information frame", .descTextFrame⟩),
  ("UFID", ⟨"UFID", "Unique file identifier", .dataFrame⟩),
  ("USER", ⟨"USER", "Terms of use", .dataFrame⟩),
  ("USLT", ⟨"USLT", "Unsychronized lyric/text transcription", .unsynchTextFrame⟩),
  ("WCOM", ⟨"WCOM", "Commercial information", .dataFrame⟩),
  ("WCOP", ⟨"WCOP", "Copyright/Legal information", .dataFrame⟩),
  ("WOAF", ⟨"WOAF", "Official audio file webpage", .dataFrame⟩),
  ("WOAR", ⟨"WOAR", "Official artist/performer webpage", .dataFrame⟩),
  ("WOAS", ⟨"WOAS", "Official audio source webpage", .dataFrame⟩),
  ("WORS", ⟨"WORS", "Official internet radio station homepage", .dataFrame⟩),
  ("WPAY", ⟨"WPAY", "Payment", .dataFrame⟩),
  ("WPUB", ⟨"WPUB", "Publishers official webpage", .dataFrame⟩),
  ("WXXX", ⟨"WXXX", "User defined URL link frame", .dataFrame⟩)
]

set_option maxHeartbeats 1000000 in
/-- `V2FrameTypeMap` from src/id3v22.go. -/
def V2FrameTypeMap : List (String × v2.FrameType) := [
  ("BUF", ⟨"BUF", "Recommended buffer size", .dataFrame⟩),
  ("CNT", ⟨"CNT", "Play counter", .dataFrame⟩),
  ("COM", ⟨"COM", "Comments", .dataFrame⟩),
  ("CRA", ⟨"CRA", "Audio encryption", .dataFrame⟩),
  ("CRM", ⟨"CRM", "Encrypted meta frame", .dataFrame⟩),
  ("ETC", ⟨"ETC", "Event timing codes", .dataFrame⟩),
  ("EQU", ⟨"EQU", "Equalization", .dataFrame⟩),
  ("GEO", ⟨"GEO", "General encapsulated object", .dataFrame⟩),
  ("IPL", ⟨"IPL", "Involved people list", .dataFrame⟩),
  ("LNK", ⟨"LNK", "Linked information", .dataFrame⟩),
  ("MCI", ⟨"MCI", "Music CD Identifier", .dataFrame⟩),
  ("MLL", ⟨"MLL", "MPEG location lookup table", .dataFrame⟩),
  ("PIC", ⟨"PIC", "Attached picture", .dataFrame⟩),
  ("POP", ⟨"POP", "Popularimeter", .dataFrame⟩),
  ("REV", ⟨"REV", "Reverb", .dataFrame⟩),
  ("RVA", ⟨"RVA", "Relative volume adjustment", .dataFrame⟩),
  ("SLT", ⟨"SLT", "Synchronized lyric/text", .dataFrame⟩),
  ("STC", ⟨"STC", "Synced tempo codes", .dataFrame⟩),
  ("TAL", ⟨"TAL", "Album/Movie/Show title", .textFrame⟩),
  ("TBP", ⟨"TBP", "BPM (Beats Per Minute)", .textFrame⟩),
  ("TCM", ⟨"TCM", "Composer", .textFrame⟩),
  ("TCO", ⟨"TCO", "Content type", .textFrame⟩),
  ("TCR", ⟨"TCR", "Copyright message", .textFrame⟩),
  ("TDA", ⟨"TDA", "Date", .textFrame⟩),
  ("TDY", ⟨"TDY", "Playlist delay", .textFrame⟩),
  ("TEN", ⟨"TEN", "Encoded by", .textFrame⟩),
  ("TFT", ⟨"TFT", "File type", .textFrame⟩),
  ("TIM", ⟨"TIM", "Time", .textFrame⟩),
  ("TKE", ⟨"TKE", "Initial key", .textFrame⟩),
  ("TLA", ⟨"TLA", "Language(s)", .textFrame⟩),
  ("TLE", ⟨"TLE", "Length", .textFrame⟩),
  ("TMT", ⟨"TMT", "Media type", .textFrame⟩),
  ("TOA", ⟨"TOA", "Original artist(s)/performer(s)", .textFrame⟩),
  ("TOF", ⟨"TOF", "Original filename", .textFrame⟩),
  ("TOL", ⟨"TOL", "Original Lyricist(s)/text writer(s)", .textFrame⟩),
  ("TOR", ⟨"TOR", "Original release year", .textFrame⟩),
  ("TOT", ⟨"TOT", "Original album/Movie/Show title", .textFrame⟩),
  ("TP1", ⟨"TP1", "Lead artist(s)/Lead performer(s)/Soloist(s)/Performing group", .textFrame⟩),
  ("TP2", ⟨"TP2", "Band/Orchestra/Accompaniment", .textFrame⟩),
  ("TP3", ⟨"TP3", "Conductor/Performer refinement", .textFrame⟩),
  ("TP4", ⟨"TP4", "Interpreted, remixed, or otherwise modified by", .textFrame⟩),
  ("TPA", ⟨"TPA", "Part of a set", .textFrame⟩),
  ("TPB", ⟨"TPB", "Publisher", .textFrame⟩),
  ("TRC", ⟨"TRC", "ISRC (International Standard Recording Code)", .textFrame⟩),
  ("TRD", ⟨"TRD", "Recording dates", .textFrame⟩),
  ("TRK", ⟨"TRK", "Track number/Position in set", .textFrame⟩),
  ("TSI", ⟨"TSI", "Size", .textFrame⟩),
  ("TSS", ⟨"TSS", "Software/hardware and settings used for encoding", .textFrame⟩),
  ("TT1", ⟨"TT1", "Content group description", .textFrame⟩),
  ("TT2", ⟨"TT2", "Title/Songname/Content description", .textFrame⟩),
  ("TT3", ⟨"TT3", "Subtitle/Description refinement", .textFrame⟩),
  ("TXT", ⟨"TXT", "Lyricist/text writer", .textFrame⟩),
  ("TXX", ⟨"TXX", "User defined text information frame", .descTextFrame⟩),
  ("TYE", ⟨"TYE", "Year", .textFrame⟩),
  ("UFI", ⟨"UFI", "Unique file identifier", .dataFrame⟩),
  ("ULT", ⟨"ULT", "Unsychronized lyric/text transcription", .dataFrame⟩),
  ("WAF", ⟨"WAF", "Official audio file webpage", .dataFrame⟩),
  ("WAR", ⟨"WAR", "Official artist/performer webpage", .dataFrame⟩),
  ("WAS", ⟨"WAS", "Official audio source webpage", .dataFrame⟩),
  ("WCM", ⟨"WCM", "Commercial information", .dataFrame⟩),
  ("WCP", ⟨"WCP", "Copyright/Legal information", .dataFrame⟩),
  ("WPB", ⟨"WPB", "Publishers official webpage", .dataFrame⟩),
  ("WXX", ⟨"WXX", "User defined URL link frame", .dataFrame⟩)
]

/-- Outcome of parsing one frame from the stream: a frame plus the remaining
stream, a `nil` result (the bytes the call consumed stay consumed), or a
runtime panic. -/
inductive FrameParse where
  | parsed (f : Framer) (rest : List Nat)
  | failed (rest : List Nat)
  | panicked
deriving DecidableEq, Repr

/-- `NewV23Frame` from src/id3v23.go: read the 10-byte header, look the
4-byte identifier up, decode the normal-integer payload size, read exactly
that many payload bytes, dispatch to the variant constructor.
`make([]byte, size)` panics when the decoded `int32` is negative. -/
def NewV23Frame (stream : List Nat) : FrameParse :=
  let data := stream.take FrameHeaderSize
  let rest := stream.drop FrameHeaderSize
  if data.length < FrameHeaderSize then .failed rest
  else
    let id := stringOfBytes (data.take 4)
    match List.lookup id V23FrameTypeMap with
    | none => .failed rest
    | some t =>
      match normint ((data.drop 4).take 4) with
      | .error _ => .failed rest
      | .ok size =>
        let h : FrameHead := ⟨t, data.getD 8 0, data.getD 9 0, size⟩
        if 2147483648 ≤ size then .panicked
        else if rest.length < size then .failed (rest.drop size)
        else match construct t.constructor h (rest.take size) with
          | .panicked => .panicked
          | .nil => .failed (rest.drop size)
          | .frame f => .parsed f (rest.drop size)

/-- `NewV2Frame` from src/id3v22.go: the 6-byte-header variant.  Its
`normint(data[3:6])` call hands a 3-byte buffer to the id3 `byteint`, which
rejects any length other than 4, so this parser always fails after consuming
the header. -/
def NewV2Frame (stream : List Nat) : FrameParse :=
  let data := stream.take V2FrameHeaderSize
  let rest := stream.drop V2FrameHeaderSize
  if data.length < V2FrameHeaderSize then .failed rest
  else
    let id := stringOfBytes (data.take 3)
    match List.lookup id V2FrameTypeMap with
    | none => .failed rest
    | some t =>
      match normint ((data.drop 3).take 3) with
      | .error _ => .failed rest
      | .ok size =>
        let h : FrameHead := ⟨t, 0, 0, size⟩
        if 2147483648 ≤ size then .panicked
        else if rest.length < size then .failed (rest.drop size)
        else match construct t.constructor h (rest.take size) with
          | .panicked => .panicked
          | .nil => .failed (rest.drop size)
          | .frame f => .parsed f (rest.drop size)

/-- `Tag` from src/unnamed/part_002: header, frame collection, padding and
the version-selected frame header width (the version-selected constructor and
serializer members are fixed by `NewTag` and identified there). -/
structure Tag where
  header : Head
  frames : List Framer
  padding : Nat
  frameHeaderSize : Nat
deriving DecidableEq, Repr

/-- Result of the frame-consuming loop of `NewTag`: the remaining declared
size, the parsed frames and the remaining stream, or a panic.  `fuelOut` is an
artifact of the fuel-bounded model only: every iteration consumes at least the
frame header from the stream, and `NewTag` supplies more fuel than the stream
has bytes, so it is never reached. -/
inductive LoopRes where
  | done (size : Int) (frames : List Framer) (stream : List Nat)
  | panicked
  | fuelOut
deriving DecidableEq, Repr

/-- The `for size > 0` frame loop of `NewTag`: parse one frame with the
version-selected constructor, stop on `nil` (the `break`), append the frame
and subtract `frameHeaderSize + frame.Size()` otherwise. -/
def NewTagLoop (useV22 : Bool) (fhs : Nat) :
    Int → List Framer → List Nat → Nat → LoopRes
  | size, frames, stream, 0 =>
    if size ≤ 0 then .done size frames stream else .fuelOut
  | size, frames, stream, fuel + 1 =>
    if size ≤ 0 then .done size frames stream
    else
      match (if useV22 then NewV2Frame stream else NewV23Frame stream) with
      | .panicked => .panicked
      | .failed rest => .done size frames rest
      | .parsed f rest =>
        NewTagLoop useV22 fhs (size - ((fhs : Int) + (f.Size : Int)))
          (frames ++ [f]) rest fuel

/-- Tag-level parse outcome: a tag plus the stream positioned after the
padding advance, Go `nil`, or a runtime panic. -/
inductive TagResult where
  | parsed (t : Tag) (rest : List Nat)
  | nilTag
  | panicked
deriving DecidableEq, Repr

/-- `NewTag` from src/unnamed/part_002: parse the header, select the
per-version configuration (`"2.2.0"` picks the short-header parser, anything
else the v2.3 one), run the frame loop, then advance the stream by
`nAdvance := int(uint(size)) - frameHeaderSize` padding bytes.  Because the
`uint` conversion and the `int` conversion back cancel (the magnitudes stay
far below 2^63), `nAdvance` is just `size - frameHeaderSize`; when that is
negative — in particular for a tag whose frames fill the declared size
exactly, where `size` is 0 — `make([]byte, nAdvance)` panics.  A positive
advance that cannot be read in full makes the parse return `nil`. -/
def NewTag (stream : List Nat) : TagResult :=
  match NewHeader stream with
  | none => .nilTag
  | some (h, rest) =>
    let useV22 := h.Version = "2.2.0"
    let fhs := if useV22 then V2FrameHeaderSize else FrameHeaderSize
    match NewTagLoop useV22 fhs (h.size : Int) [] rest (rest.length + 1) with
    | .fuelOut => .panicked
    | .panicked => .panicked
    | .done size frames rest2 =>
      let nAdvance : Int := size - (fhs : Int)
      if nAdvance < 0 then .panicked
      else if rest2.length < nAdvance.toNat then .nilTag
      else .parsed { header := h, frames := frames, padding := size.toNat,
                     frameHeaderSize := fhs } (rest2.drop nAdvance.toNat)

/-- `Tag.Size` from src/id3v2.go / src/unnamed/part_002.  The method has a
VALUE receiver: the `t.padding` writes in both branches and the update of the
local `head` copy produced by the `t.Header.(Head)` type assertion die with
the call.  The model returns the computed result together with the tag the
caller is left with — which is the unchanged receiver. -/
def Tag.Size (t : Tag) : Int × Tag :=
  let size : Int :=
    t.frames.foldl (fun acc f => acc + ((t.frameHeaderSize : Int) + (f.Size : Int))) 0
  let headerSize : Int := t.header.size
  if headerSize - size < 0 then
    (size, t)
  else
    (headerSize, t)

end id3

namespace id3

/-! ## File save and in-place resize (src/id3v22.go, src/unnamed/part_005)

The file is a `List Nat` of bytes.  `ReadAt` tolerates a short read (it can
return `io.EOF`, which `shiftBytesBack` ignores); `WriteAt` extends the file,
zero-filling any gap. -/

/-- `file.ReadAt(buf, off)`: fills the prefix of `buf` with the bytes
available at `off`, keeps the stale suffix of the buffer, and returns the
count actually read. -/
def readAtFill (file : List Nat) (off : Nat) (buf : List Nat) : List Nat × Nat :=
  let fresh := (file.drop off).take buf.length
  (fresh ++ buf.drop fresh.length, fresh.length)

/-- `file.WriteAt(bytes, off)`: positioned write, zero-filling a gap past the
current end of the file. -/
def writeAt (file : List Nat) (off : Nat) (bytes : List Nat) : List Nat :=
  file.take off ++ List.replicate (off - file.length) 0 ++ bytes
    ++ file.drop (off + bytes.length)

/-- The `for` loop of `shiftBytesBack`: read the next chunk into `rdBuf`,
clamp its length to `endPos`, write the previously read chunk `wrBuf[:rn]` at
the write cursor, advance both cursors, and roll the buffers
(`copy(wrBuf, rdBuf)` copies the whole equal-length buffer).  After the loop
the final pending chunk is written.  The fuel bounds the model of the
unbounded Go loop; `none` stands for the loop spinning without progress (a
read past the end of the file), which never happens on the evaluated
inputs. -/
def shiftLoop (file wrBuf rdBuf : List Nat) (rn rdOffset wrOffset : Nat)
    (endPos offset : Nat) : Nat → Option (List Nat)
  | 0 => none
  | fuel + 1 =>
    if endPos ≤ rdOffset then
      some (writeAt file wrOffset (wrBuf.take rn))
    else
      let (rdBuf2, nRead) := readAtFill file rdOffset rdBuf
      let n := if endPos < rdOffset + nRead then endPos - rdOffset else nRead
      let file2 := writeAt file wrOffset (wrBuf.take rn)
      shiftLoop file2 rdBuf2 rdBuf2 n (rdOffset + n) (wrOffset + rn) endPos offset fuel

/-- `shiftBytesBack` from src/id3v22.go (also src/unnamed/part_005):
double-buffered pass over `[start, endPos)` in chunks of `offset` bytes.  The
write cursor is initialised to `offset` — the absolute file position
`offset`, NOT `start + offset` — so every relocated chunk lands `start`
bytes before its intended destination. -/
def shiftBytesBack (file : List Nat) (start endPos offset : Nat) : Option (List Nat) :=
  let wrBuf := List.replicate offset 0
  let rdBuf := List.replicate offset 0
  let wrOffset := offset
  let rdOffset := start
  let (wrBuf2, rn) := readAtFill file rdOffset wrBuf
  shiftLoop file wrBuf2 rdBuf rn (rdOffset + rn) wrOffset endPos offset (endPos + 1)

/-- `File.Close` from src/id3v22.go for a v2 tag: when the tag grew
(`Size() > originalSize`), shift the audio that starts at
`originalSize + HeaderSize` forward by `offset = newSize - originalSize`,
then write the serialized tag (`Tagger.Bytes()`, supplied here as `tagBytes`)
at offset 0. -/
def FileClose (file : List Nat) (originalSize : Nat) (tagBytes : List Nat)
    (newSize : Nat) : Option (List Nat) :=
  if originalSize < newSize then
    let start := originalSize + HeaderSize
    let endPos := file.length
    let offset := newSize - originalSize
    match shiftBytesBack file start endPos offset with
    | none => none
    | some f2 => some (writeAt f2 0 tagBytes)
  else some (writeAt file 0 tagBytes)

end id3

/-- Claim C1: after growing the tag from total size `T0` to `T1` and saving,
the file is claimed to hold the new tag at `[0, T1)` and the audio unchanged
at `[T1, T1 + len(A))`.  Concretely: a 30-byte file with a 20-byte tag region
(`originalSize` 10 plus the 10-byte header) and audio `A = 100..109`, grown to
a 25-byte tag (`newSize` 15, so `T1 = 25`).  Because `shiftBytesBack` starts
its write cursor at `offset` (5) instead of `start + offset` (25), the audio
chunks are written at positions 5 and 10 — inside the tag region, where the
subsequent tag write destroys them — and the audio region `[25, 30)` keeps its
stale tail `105..109`.  The bytes from `T1 = 25` on are `[105..109]`, not `A`:
the first half of the audio is lost, contradicting the claim (and the
repository's own `TestClose`, which checks that the post-tag bytes survive a
save). -/
theorem claimC1_resize_misplaces_audio :
    id3.FileClose
        (List.replicate 20 1 ++ [100, 101, 102, 103, 104, 105, 106, 107, 108, 109])
        10 (List.replicate 25 2) 15
      = some (List.replicate 25 2 ++ [105, 106, 107, 108, 109]) ∧
    ¬ ((List.replicate 25 2 ++ [105, 106, 107, 108, 109]).drop 25
        = [100, 101, 102, 103, 104, 105, 106, 107, 108, 109]) := by
  constructor
  · decide
  · decide

/-- Claim C3: after the frame loop, the parser is claimed to advance the
stream past exactly the remaining padding (succeeding for every tag, zero
padding included).  The code advances `padding - frameHeaderSize` bytes
instead: for a v2.3 tag whose declared size 11 is filled exactly by one
11-byte PCNT frame, the loop ends with 0 remaining, `nAdvance` is -10 and
`make([]byte, nAdvance)` panics — the parse neither positions the stream
after the tag nor returns `nil`.  The second conjunct shows the compensating
case the subtraction was written for: with 10 bytes of padding the failed
frame-header probe has already consumed 10 padding bytes, `nAdvance` is 0 and
the stream does end up exactly at the audio byte 99. -/
theorem claimC3_zero_padding_advance_panics :
    id3.NewTag [73, 68, 51, 3, 0, 0, 0, 0, 0, 11,
        80, 67, 78, 84, 0, 0, 0, 1, 0, 0, 7] = .panicked ∧
    id3.NewTag ([73, 68, 51, 3, 0, 0, 0, 0, 0, 21,
        80, 67, 78, 84, 0, 0, 0, 1, 0, 0, 7] ++ List.replicate 10 0 ++ [99])
      = .parsed
          ⟨⟨3, 0, 0, 21⟩,
            [.dataFrame ⟨⟨"PCNT", "Play counter", .dataFrame⟩, 0, 0, 1⟩ [7]], 10, 10⟩
          [99] := by
  constructor
  · decide
  · decide

/-- Claim C4: when the frame sum exceeds the declared size, `Tag.Size` is
claimed to update the header's declared size and zero the padding (otherwise
to store `declared - sum` as padding).  The method's value receiver makes
both writes land on copies: on a tag with declared size 5 and one frame of
total size 11 the call returns 11 but leaves the header's declared size at 5,
and on a tag with declared size 20 the call returns 20 but leaves the padding
field at 0 instead of the claimed 20 - 11 = 9.  Only the returned values match
the claim. -/
theorem claimC4_size_update_lost_on_copy :
    id3.Tag.Size
        ⟨⟨3, 0, 0, 5⟩,
          [.dataFrame ⟨⟨"PCNT", "Play counter", .dataFrame⟩, 0, 0, 1⟩ [7]], 0, 10⟩
      = (11, ⟨⟨3, 0, 0, 5⟩,
          [.dataFrame ⟨⟨"PCNT", "Play counter", .dataFrame⟩, 0, 0, 1⟩ [7]], 0, 10⟩) ∧
    id3.Tag.Size
        ⟨⟨3, 0, 0, 20⟩,
          [.dataFrame ⟨⟨"PCNT", "Play counter", .dataFrame⟩, 0, 0, 1⟩ [7]], 0, 10⟩
      = (20, ⟨⟨3, 0, 0, 20⟩,
          [.dataFrame ⟨⟨"PCNT", "Play counter", .dataFrame⟩, 0, 0, 1⟩ [7]], 0, 10⟩) := by
  constructor
  · decide
  · decide
